import Mathlib

/-!
Shallow embedding of the multimodal tutoring session orchestrator
(`src/lib/api/mediaStreamTutor.ts`, class `MediaStreamTutorSession`).

The class is single-threaded and callback-driven; every method and event
handler is embedded as a pure state transformer on a `Session` record.
Browser resources (media streams, recognizer instances) are modelled by
numeric ids; environment-dependent outcomes (frame grab, generative-API
call) are passed in as explicit parameters.  Observation fields
(`stoppedTracks`, `sent`, `sentRequests`, `chatHistories`, `engineCalls`,
`srDetached`, `srCreated`) record externally visible effects of the code
(track.stop calls, sendMessage events, generateContent requests,
startChat constructions, tutor-engine invocations, recognizer-handler
detachments and instance creations) so that theorems can speak about them.
-/

namespace RealTutor

/-- Message roles as used by `messageHistory` in the source
(`'user' | 'model' | 'tutor' | 'system'`). -/
inductive Role where
  | user
  | model
  | tutor
  | system
deriving DecidableEq, Repr

/-- One entry of `messageHistory`: `{ role, content }`. -/
structure Message where
  role : Role
  content : String
deriving DecidableEq, Repr

/-- One `Content` element of the Gemini-format history: a role together
with a single text part (`parts: [{ text }]` in the source). -/
structure GeminiContent where
  role : Role
  text : String
deriving DecidableEq, Repr

/-- Embedding of `convertToGeminiHistory` (source lines 79-84): maps
`tutor` to `model` and `system` to `user`, keeping order and content. -/
def convertToGeminiHistory (messageHistory : List Message) : List GeminiContent :=
  messageHistory.map fun msg =>
    { role := if msg.role = Role.tutor then Role.model
              else if msg.role = Role.system then Role.user
              else msg.role,
      text := msg.content }

/-- Embedding of the `MediaStreamSessionState` interface (source lines 105-112). -/
structure MediaStreamSessionState where
  isConnected : Bool
  isAudioActive : Bool
  isVideoActive : Bool
  isScreenActive : Bool
  isProcessing : Bool
  isSpeaking : Bool
deriving DecidableEq, Repr

/-- Message types emitted through `sendMessage` (the `type` field of the
objects the class sends to its data channel / `onMessage` handler). -/
inductive MsgType where
  | systemInfo
  | userMessage
  | tutorMessage
  | speechFinal
  | speechInterim
deriving DecidableEq, Repr

/-- One emitted `sendMessage` event (timestamp omitted). -/
structure OutMsg where
  type : MsgType
  content : String
deriving DecidableEq, Repr

/-- One part of a Gemini `generateContent` request: a text part or an
inline-data (base64 image) part. -/
inductive Part where
  | text (s : String)
  | inlineData (data : String) (mimeType : String)
deriving DecidableEq, Repr

/-- Environment outcome of the generative-API interaction inside
`analyzeScreenAndSpeech`: the `generateContent` call succeeds with a
response text, it fails (quota / network / malformed response — the inner
`catch`), or the setup before it (`getGenerativeModel` / `startChat`)
throws (the outer `catch`). -/
inductive ApiOutcome where
  | ok (responseText : String)
  | apiError
  | setupThrow
deriving DecidableEq, Repr

/-- Environment outcome of one frame grab inside `captureScreenFrame`:
a grabbed and encoded base64 frame, an unsupported `ImageCapture` API,
or a thrown grab/encode error (caught and logged). -/
inductive FrameResult where
  | grabbed (base64 : String)
  | unsupported
  | failed
deriving DecidableEq, Repr

/-- One element of a speech-recognition result event: a transcript text
and its `isFinal` flag. -/
structure SRResult where
  transcript : String
  isFinal : Bool
deriving DecidableEq, Repr

/-- The session object.  The first block mirrors the mutable fields of
`MediaStreamTutorSession`; the second block holds observation fields
recording externally visible effects (see the file comment). -/
structure Session where
  state : MediaStreamSessionState
  messageHistory : List Message
  subject : String
  level : String
  localAudioStream : Option Nat
  localVideoStream : Option Nat
  localScreenStream : Option Nat
  speechRecognition : Option Nat
  captureInterval : Bool
  speechToTextResult : String
  stoppedTracks : List Nat
  sent : List OutMsg
  sentRequests : List (List Part)
  chatHistories : List (List GeminiContent)
  engineCalls : Nat
  srDetached : List Nat
  srCreated : List Nat
  srNextId : Nat
  ttsAvailable : Bool
  ttsQueue : List String
deriving DecidableEq, Repr

/-- The fixed tutoring system prompt `TUTOR_SYSTEM_PROMPT` (source lines 54-76). -/
def TUTOR_SYSTEM_PROMPT : String :=
  "당신은 RealTutor라는 개인화된 AI 학습 튜터입니다. \n화면 공유와 음성 대화를 통해 학생들을 지도합니다.\n화면에 보이는 내용과 학생의 말을 분석하여 실시간으로 도움을 제공하세요.\n\n다음 원칙을 따라주세요:\n1. 화면의 코드, 텍스트, 이미지 등을 분석하여 맥락을 파악하세요.\n2. 오류를 발견하면 구체적인 해결책을 제시하세요.\n3. 설명은 간결하고 명확하게 전달하세요 (음성 대화에 적합하게).\n4. 학생이 문제를 스스로 해결할 수 있도록 힌트를 제공하세요.\n5. 학생의 이해도를 지속적으로 확인하세요.\n6. 학생이 성취했을 때 긍정적인 피드백을 제공하세요.\n\n화면 공유에서는:\n- 코드의 구문 오류, 로직 오류, 스타일 문제를 식별하세요.\n- 문서나 슬라이드의 주요 내용과 개념을 요약하세요.\n- 수학 문제나 다이어그램의 해석을 도와주세요.\n\n음성 대화에서는:\n- 학생의 질문을 정확히 이해하고 답변하세요.\n- 발음이 명확하지 않은 경우, 가장 가능성 높은 해석을 제시하세요.\n- 친절하고 격려하는 톤을 유지하세요.\n\n한국어로 응답해주세요."

/-- The inline instruction block built inside `analyzeScreenAndSpeech`
(source lines 670-676), parameterised over subject and level. -/
def analyzeSystemPrompt (subject level : String) : String :=
  "당신은 AI 튜터입니다. 학생에게 " ++ subject ++ "(" ++ level ++ " 수준)를 가르치고 있습니다.\n다음 지침을 따라주세요:\n1. 답변은 간결하고 명확하게 작성하세요. 불필요한 설명은 줄이고 핵심만 전달하세요.\n2. 3-4문장 이내로 짧게 답변하세요. 학생이 소화하기 쉬운 분량이 중요합니다.\n3. 공유된 화면을 분석하고 학생의 질문에 직접적으로 답하세요.\n4. 전문 용어는 필요한 경우에만 사용하고, 가능한 쉽게 설명하세요.\n5. 질문에 대한 직접적인 해결책을 제시하세요."

/-- The user message built inside `analyzeScreenAndSpeech` (source lines
693-696): the default when no speech text accumulated, otherwise the
question template around the speech text. -/
def analyzeUserMessage (speechText : String) : String :=
  if speechText = "" then "현재 화면을 분석해주세요."
  else "학생 질문: " ++ speechText ++ "\n\n화면을 분석하고 이 질문에 답해주세요."

/-- Retry-later advisory emitted by the inner `catch` of
`analyzeScreenAndSpeech` (source line 756). -/
def analyzeErrorMessage : String :=
  "화면 분석 중 오류가 발생했습니다. 잠시 후 다시 시도해주세요."

/-- Advisory emitted by the speech-synthesis `onerror` handler
(source line 982). -/
def ttsErrorMessage : String :=
  "음성 출력에 문제가 발생했습니다. 텍스트로 대화를 계속하세요."

/-- The argument list of the `model.generateContent` call actually made
by `analyzeScreenAndSpeech` (source lines 715-730): the inline system
prompt, the user message, and the inlined jpeg frame. -/
def generateContentRequest (systemPrompt userMessage imageData : String) : List Part :=
  [Part.text systemPrompt, Part.text userMessage, Part.inlineData imageData "image/jpeg"]

/-- Record that `track.stop()` was called on every track of a stream.
Stopping an already-ended track is a browser no-op, so the log is kept
duplicate-free. -/
def stopTracks (id : Nat) (stopped : List Nat) : List Nat :=
  if id ∈ stopped then stopped else id :: stopped

/-- The session right after the constructor (source lines 158-199) runs
in a browser that supports speech recognition and synthesis: all flags
false, the system message in the history, recognizer instance 0 created. -/
def initialSession (subject level : String) : Session where
  state := ⟨false, false, false, false, false, false⟩
  messageHistory :=
    [⟨Role.system, TUTOR_SYSTEM_PROMPT ++ "\n\n학습 주제: " ++ subject ++ "\n학습자 수준: " ++ level⟩]
  subject := subject
  level := level
  localAudioStream := none
  localVideoStream := none
  localScreenStream := none
  speechRecognition := some 0
  captureInterval := false
  speechToTextResult := ""
  stoppedTracks := []
  sent := []
  sentRequests := []
  chatHistories := []
  engineCalls := 0
  srDetached := []
  srCreated := [0]
  srNextId := 1
  ttsAvailable := true
  ttsQueue := []

/-- Embedding of the success path of `startVideoStream` (source lines
448-513): stop the tracks of any previous local video stream, acquire a
new camera stream (id supplied by the environment), add its tracks, and
set `isVideoActive`.  Nothing else — in particular the screen modality is
not touched. -/
def startVideoStream (s : Session) (newId : Nat) : Session :=
  let s1 :=
    match s.localVideoStream with
    | some old => { s with stoppedTracks := stopTracks old s.stoppedTracks }
    | none => s
  let s2 := { s1 with localVideoStream := some newId }
  { s2 with state := { s2.state with isVideoActive := true } }

/-- Embedding of `startScreenCapture` (source lines 591-599): clear any
existing capture interval and install a fresh one at `capturePeriod`. -/
def startScreenCapture (s : Session) : Session :=
  { s with captureInterval := true }

/-- Embedding of the success path of `startScreenStream` (source lines
518-586): stop the tracks of any previous local screen stream, acquire a
new display stream, add its tracks, set `isScreenActive`, and start the
capture interval.  The video modality is not touched. -/
def startScreenStream (s : Session) (newId : Nat) : Session :=
  let s1 :=
    match s.localScreenStream with
    | some old => { s with stoppedTracks := stopTracks old s.stoppedTracks }
    | none => s
  let s2 := { s1 with localScreenStream := some newId }
  let s3 := { s2 with state := { s2.state with isScreenActive := true } }
  startScreenCapture s3

/-- Embedding of `stopAudioStream` (source lines 1149-1187): set
`isAudioActive` false, detach the recognizer handlers and drop the
recognizer reference if one exists, and stop and drop the audio stream
if one exists.  No transcript field is touched. -/
def stopAudioStream (s : Session) : Session :=
  let s1 := { s with state := { s.state with isAudioActive := false } }
  let s2 :=
    match s1.speechRecognition with
    | some r => { s1 with srDetached := stopTracks r s1.srDetached, speechRecognition := none }
    | none => s1
  match s2.localAudioStream with
  | some a => { s2 with stoppedTracks := stopTracks a s2.stoppedTracks, localAudioStream := none }
  | none => s2

/-- Embedding of `stopVideoStream` (source lines 1192-1197): if a local
video stream exists, stop its tracks and set `isVideoActive` false; the
stream reference is kept (the source does not null it). -/
def stopVideoStream (s : Session) : Session :=
  match s.localVideoStream with
  | some v =>
      let s1 := { s with stoppedTracks := stopTracks v s.stoppedTracks }
      { s1 with state := { s1.state with isVideoActive := false } }
  | none => s

/-- Embedding of `stopScreenStream` (source lines 1202-1212): if a local
screen stream exists, stop its tracks and set `isScreenActive` false;
then clear the capture interval if one is set. -/
def stopScreenStream (s : Session) : Session :=
  let s1 :=
    match s.localScreenStream with
    | some v =>
        let t := { s with stoppedTracks := stopTracks v s.stoppedTracks }
        { t with state := { t.state with isScreenActive := false } }
    | none => s
  { s1 with captureInterval := false }

/-- Embedding of `speakResponse` (source lines 942-1006), success path of
the synthesis engine call: if synthesis is unavailable, do nothing;
otherwise cancel the whole engine queue, set `isSpeaking`, build a fresh
utterance and enqueue it. -/
def speakResponse (text : String) (s : Session) : Session :=
  if s.ttsAvailable = false then s
  else
    let s1 := { s with ttsQueue := [] }
    let s2 := { s1 with state := { s1.state with isSpeaking := true } }
    { s2 with ttsQueue := s2.ttsQueue ++ [text] }

/-- Embedding of the utterance `onend` handler (source lines 966-969):
the utterance finished, so the engine queue is empty and `isSpeaking`
is cleared. -/
def speechSynthesisOnEnd (s : Session) : Session :=
  { s with state := { s.state with isSpeaking := false }, ttsQueue := [] }

/-- Embedding of the utterance `onerror` handler (source lines 971-987):
emit the advisory, clear `isSpeaking`; the utterance is gone from the
engine queue. -/
def speechSynthesisOnError (s : Session) : Session :=
  let s1 := { s with sent := s.sent ++ [OutMsg.mk MsgType.systemInfo ttsErrorMessage] }
  { s1 with state := { s1.state with isSpeaking := false }, ttsQueue := [] }

/-- Embedding of `analyzeScreenAndSpeech` (source lines 654-770).  The
api-key presence and the provider outcome are environment parameters.
Mirrors the source order: early return without touching state when the
key is missing; set `isProcessing`; build the inline system prompt,
convert the history and create the (never again used) chat session;
build the user message and, when speech text is present, append it to
the history and emit it; issue the `generateContent` request; on success
append and emit the tutor reply and speak it, on provider error emit the
single retry advisory; in every path the `finally` clears `isProcessing`. -/
def analyzeScreenAndSpeech (hasApiKey : Bool) (outcome : ApiOutcome)
    (imageData speechText : String) (s : Session) : Session :=
  if hasApiKey = false then s
  else
    let s1 := { s with state := { s.state with isProcessing := true } }
    match outcome with
    | ApiOutcome.setupThrow =>
        { s1 with state := { s1.state with isProcessing := false } }
    | outcome =>
      let systemPrompt := analyzeSystemPrompt s1.subject s1.level
      let geminiHistory := convertToGeminiHistory s1.messageHistory
      let s2 := { s1 with chatHistories := s1.chatHistories ++ [geminiHistory] }
      let userMessage := analyzeUserMessage speechText
      let s3 :=
        if speechText = "" then s2
        else
          { s2 with
            messageHistory := s2.messageHistory ++ [Message.mk Role.user userMessage],
            sent := s2.sent ++ [OutMsg.mk MsgType.userMessage userMessage] }
      let request := generateContentRequest systemPrompt userMessage imageData
      let s4 := { s3 with sentRequests := s3.sentRequests ++ [request] }
      match outcome with
      | ApiOutcome.ok responseText =>
          let s5 :=
            { s4 with
              messageHistory := s4.messageHistory ++ [Message.mk Role.tutor responseText],
              sent := s4.sent ++ [OutMsg.mk MsgType.tutorMessage responseText] }
          let s6 := speakResponse responseText s5
          { s6 with state := { s6.state with isProcessing := false } }
      | _ =>
          let s5 := { s4 with sent := s4.sent ++ [OutMsg.mk MsgType.systemInfo analyzeErrorMessage] }
          { s5 with state := { s5.state with isProcessing := false } }

/-- Embedding of `captureScreenFrame` (source lines 604-649), the body of
one sampling tick: return immediately unless a local screen stream
exists and `isScreenActive`; on a grabbed non-empty frame, read the
accumulated final transcript and, only when it is non-empty, invoke the
tutor engine (`analyzeScreenAndSpeech`) once and then clear the
transcript buffer; otherwise discard the frame. -/
def captureScreenFrame (hasApiKey : Bool) (outcome : ApiOutcome)
    (fr : FrameResult) (s : Session) : Session :=
  if s.localScreenStream = none ∨ s.state.isScreenActive = false then s
  else
    match fr with
    | FrameResult.grabbed base64 =>
        if base64 = "" then s
        else
          let speechText := s.speechToTextResult
          if speechText = "" then s
          else
            let s1 := { s with engineCalls := s.engineCalls + 1 }
            let s2 := analyzeScreenAndSpeech hasApiKey outcome base64 speechText s1
            { s2 with speechToTextResult := "" }
    | _ => s

/-- The concatenation of the final transcripts of one recognition result
event (the `finalTranscript` accumulator of `onresult`). -/
def finalTranscriptOf (results : List SRResult) : String :=
  results.foldl (fun acc r => if r.isFinal then acc ++ r.transcript else acc) ""

/-- The concatenation of the interim transcripts of one recognition
result event (the `interimTranscript` accumulator of `onresult`). -/
def interimTranscriptOf (results : List SRResult) : String :=
  results.foldl (fun acc r => if r.isFinal then acc else acc ++ r.transcript) ""

/-- Embedding of the recognizer `onresult` handler (source lines 781-815):
if the event carried final text, assign (replace) `speechToTextResult`
with it and emit a final speech-text event; otherwise, if it carried
interim text, emit an interim speech-text event only. -/
def recognitionOnResult (results : List SRResult) (s : Session) : Session :=
  let finalTranscript := finalTranscriptOf results
  let interimTranscript := interimTranscriptOf results
  if finalTranscript = "" then
    if interimTranscript = "" then s
    else { s with sent := s.sent ++ [OutMsg.mk MsgType.speechInterim interimTranscript] }
  else
    { s with
      speechToTextResult := finalTranscript,
      sent := s.sent ++ [OutMsg.mk MsgType.speechFinal finalTranscript] }

/-- Embedding of the synchronous part of the recognizer `onend` handler
(source lines 837-856): if audio is no longer active, do nothing;
otherwise drop the instance reference (handlers are not detached here)
and schedule `safeStartSpeechRecognition` after the 1000 ms delay. -/
def recognitionOnEnd (s : Session) : Session :=
  if s.state.isAudioActive = false then s
  else { s with speechRecognition := none }

/-- Embedding of the synchronous cleanup at the top of
`safeStartSpeechRecognition` (source lines 871-889): if an instance is
still referenced, detach its handlers, stop it and drop the reference. -/
def safeStartCleanup (s : Session) : Session :=
  match s.speechRecognition with
  | some r => { s with srDetached := stopTracks r s.srDetached, speechRecognition := none }
  | none => s

/-- Embedding of the delayed body of `safeStartSpeechRecognition`
(source lines 892-936, success path): after the 500 ms settling delay,
if audio is still active, create a brand-new recognizer instance and
attach handlers (the further 300 ms delayed `start()` succeeds). -/
def safeStartCreate (s : Session) : Session :=
  if s.state.isAudioActive = false then s
  else
    { s with
      speechRecognition := some s.srNextId,
      srCreated := s.srNextId :: s.srCreated,
      srNextId := s.srNextId + 1 }

/-- Embedding of `safeStartSpeechRecognition` as a whole (cleanup, then
the delayed creation) when no other event fires in between. -/
def safeStartSpeechRecognition (s : Session) : Session :=
  safeStartCreate (safeStartCleanup s)

/-- Embedding of the 1000 ms timeout body scheduled by `onend` (source
lines 850-855): re-check `isAudioActive` at fire time and only then call
`safeStartSpeechRecognition`. -/
def onEndRestartTimeout (s : Session) : Session :=
  if s.state.isAudioActive then safeStartSpeechRecognition s else s

/-- The complete unexpected-end flow with no intervening event: the
`onend` handler followed by its delayed restart body. -/
def recognizerEndFlow (s : Session) : Session :=
  onEndRestartTimeout (recognitionOnEnd s)

/-- The unexpected-end flow when the user stops audio between the `onend`
handler and the delayed restart body. -/
def recognizerEndThenStopFlow (s : Session) : Session :=
  onEndRestartTimeout (stopAudioStream (recognitionOnEnd s))

/-- A session with a prior user/tutor exchange already in the history,
used to observe what reaches the generative request. -/
def historySessionC3 : Session :=
  { initialSession "algebra" "beginner" with
    messageHistory := (initialSession "algebra" "beginner").messageHistory
      ++ [Message.mk Role.user "q1", Message.mk Role.tutor "a1"] }

/-- A session whose camera is active (screen share off) with a pending
finalized transcript — the state in which a sampling tick would have to
sample the camera for camera/screen parity to hold. -/
def cameraSessionC4 : Session :=
  { initialSession "수학" "beginner" with
    localVideoStream := some 3,
    state := { (initialSession "수학" "beginner").state with isVideoActive := true },
    speechToTextResult := "이 문제 풀이 좀 봐주세요" }

/-- A session with an active screen share and a pending finalized
transcript, as seen by a normal sampling tick. -/
def screenSessionC5 : Session :=
  { initialSession "수학" "beginner" with
    localScreenStream := some 2,
    state := { (initialSession "수학" "beginner").state with isScreenActive := true },
    captureInterval := true,
    speechToTextResult := "변수가 뭐예요" }

/-- A session whose audio capability is active, with recognizer
instance 0 (from the constructor) still referenced. -/
def audioSessionC7 : Session :=
  { initialSession "수학" "beginner" with
    state := { (initialSession "수학" "beginner").state with isAudioActive := true },
    localAudioStream := some 7 }

/-- An audio-active session holding a pending finalized transcript at
the moment `stopAudioStream` is called. -/
def audioSessionC9 : Session :=
  { initialSession "수학" "beginner" with
    state := { (initialSession "수학" "beginner").state with isAudioActive := true },
    localAudioStream := some 4,
    speechToTextResult := "마지막 질문" }

/-- Once a stream id is in the stop log, stopping it again changes nothing. -/
theorem stopTracks_eq_of_mem {a : Nat} {l : List Nat} (h : a ∈ l) : stopTracks a l = l := by
  simp [stopTracks, h]

/-- A stream id is always in the stop log after its tracks are stopped. -/
theorem mem_stopTracks_self (a : Nat) (l : List Nat) : a ∈ stopTracks a l := by
  unfold stopTracks
  split
  · assumption
  · exact List.mem_cons_self a l

/-- Claim C1 is false on the code: starting the camera and then starting
screen share (both succeeding) leaves BOTH `isVideoActive` and
`isScreenActive` true after the second call settles, and no track of the
camera stream was stopped — neither start call deactivates the other
visual modality. -/
theorem C1_counterexample :
    (startScreenStream (startVideoStream (initialSession "수학" "beginner") 1) 2).state.isVideoActive = true
    ∧ (startScreenStream (startVideoStream (initialSession "수학" "beginner") 1) 2).state.isScreenActive = true
    ∧ (startScreenStream (startVideoStream (initialSession "수학" "beginner") 1) 2).stoppedTracks = [] := by
  exact ⟨rfl, rfl, rfl⟩

/-- Claim C1 amended: `startVideoStream` (resp. `startScreenStream`) stops
the tracks of its OWN previous stream before requesting the new one and
sets only its own active flag; the other visual modality's flag and
stream are left untouched, so no mutual exclusion is enforced — after
starting one modality and then the other, both flags are true. -/
theorem startVisual_only_own_modality (s : Session) (nv ns : Nat) :
    ((startVideoStream s nv).state.isScreenActive = s.state.isScreenActive
      ∧ (startVideoStream s nv).localScreenStream = s.localScreenStream
      ∧ (startVideoStream s nv).state.isVideoActive = true
      ∧ (∀ old, s.localVideoStream = some old → old ∈ (startVideoStream s nv).stoppedTracks))
    ∧ ((startScreenStream s ns).state.isVideoActive = s.state.isVideoActive
      ∧ (startScreenStream s ns).localVideoStream = s.localVideoStream
      ∧ (startScreenStream s ns).state.isScreenActive = true
      ∧ (∀ old, s.localScreenStream = some old → old ∈ (startScreenStream s ns).stoppedTracks)) := by
  constructor
  · refine ⟨?_, ?_, ?_, ?_⟩
    · cases h : s.localVideoStream <;> simp [startVideoStream, h]
    · cases h : s.localVideoStream <;> simp [startVideoStream, h]
    · cases h : s.localVideoStream <;> simp [startVideoStream, h]
    · intro old h
      simp [startVideoStream, h, mem_stopTracks_self]
  · refine ⟨?_, ?_, ?_, ?_⟩
    · cases h : s.localScreenStream <;> simp [startScreenStream, startScreenCapture, h]
    · cases h : s.localScreenStream <;> simp [startScreenStream, startScreenCapture, h]
    · cases h : s.localScreenStream <;> simp [startScreenStream, startScreenCapture, h]
    · intro old h
      simp [startScreenStream, startScreenCapture, h, mem_stopTracks_self]

/-- Witness for the amended C1 at concrete sessions holding a previous
stream of the same modality. -/
theorem startVisual_only_own_modality_witness :
    5 ∈ (startVideoStream { initialSession "수학" "beginner" with localVideoStream := some 5 } 1).stoppedTracks
    ∧ 6 ∈ (startScreenStream { initialSession "수학" "beginner" with localScreenStream := some 6 } 2).stoppedTracks := by
  exact ⟨(startVisual_only_own_modality { initialSession "수학" "beginner" with localVideoStream := some 5 } 1 2).1.2.2.2 5 rfl,
         (startVisual_only_own_modality { initialSession "수학" "beginner" with localScreenStream := some 6 } 1 2).2.2.2.2 6 rfl⟩

/-- Claim C2 is false on the code: when the generative call fails, the
conversation history is NOT unchanged — the user turn pushed before the
attempt remains appended. -/
theorem C2_counterexample :
    ¬ (analyzeScreenAndSpeech true ApiOutcome.apiError "IMG" "질문" (initialSession "수학" "beginner")).messageHistory
      = (initialSession "수학" "beginner").messageHistory := by
  intro h
  have hlen := congrArg List.length h
  exact absurd hlen (by decide)

/-- Claim C2 amended: on a provider failure the tutor turn is not
appended and exactly one retry-later advisory is emitted, the processing
flag is reset and the transcript buffer is untouched, so the session
remains usable; however the user-turn entry appended before the attempt
remains in the history. -/
theorem analyze_apiError_state (s : Session) (img txt : String) (h : ¬ txt = "") :
    (analyzeScreenAndSpeech true ApiOutcome.apiError img txt s).messageHistory
      = s.messageHistory ++ [Message.mk Role.user (analyzeUserMessage txt)]
    ∧ (analyzeScreenAndSpeech true ApiOutcome.apiError img txt s).sent
      = s.sent ++ [OutMsg.mk MsgType.userMessage (analyzeUserMessage txt),
                   OutMsg.mk MsgType.systemInfo analyzeErrorMessage]
    ∧ (analyzeScreenAndSpeech true ApiOutcome.apiError img txt s).state.isProcessing = false
    ∧ (analyzeScreenAndSpeech true ApiOutcome.apiError img txt s).speechToTextResult = s.speechToTextResult
    ∧ (analyzeScreenAndSpeech true ApiOutcome.apiError img txt s).ttsQueue = s.ttsQueue := by
  simp [analyzeScreenAndSpeech, h]

/-- Witness for the amended C2 at a concrete failing call. -/
theorem analyze_apiError_state_witness :
    (analyzeScreenAndSpeech true ApiOutcome.apiError "IMG" "이게 뭐죠" (initialSession "수학" "beginner")).sent
      = [] ++ [OutMsg.mk MsgType.userMessage (analyzeUserMessage "이게 뭐죠"),
               OutMsg.mk MsgType.systemInfo analyzeErrorMessage]
    ∧ (analyzeScreenAndSpeech true ApiOutcome.apiError "IMG" "이게 뭐죠" (initialSession "수학" "beginner")).state.isProcessing = false := by
  exact ⟨(analyze_apiError_state (initialSession "수학" "beginner") "IMG" "이게 뭐죠" (by decide)).2.1,
         (analyze_apiError_state (initialSession "수학" "beginner") "IMG" "이게 뭐죠" (by decide)).2.2.1⟩

/-- Claim C3 fails on the code (code bug): with a prior user/tutor
exchange in the history, the request actually given to `generateContent`
is only [inline instruction block, new user text, inlined frame] — the
prior turns are absent from it (the part list contains nothing of the
prior reply), even though the code did convert the history with the
roles mapped and seeded a chat session with it, which it then never
uses.  The fixed `TUTOR_SYSTEM_PROMPT` likewise reaches only that unused
chat history (as the system entry), not the sent request. -/
theorem C3_sent_request_omits_history :
    (analyzeScreenAndSpeech true (ApiOutcome.ok "응답") "IMG" "변수가 뭐예요" historySessionC3).sentRequests
      = [[Part.text (analyzeSystemPrompt "algebra" "beginner"),
          Part.text (analyzeUserMessage "변수가 뭐예요"),
          Part.inlineData "IMG" "image/jpeg"]]
    ∧ Part.text "a1" ∉ [Part.text (analyzeSystemPrompt "algebra" "beginner"),
          Part.text (analyzeUserMessage "변수가 뭐예요"),
          Part.inlineData "IMG" "image/jpeg"]
    ∧ (analyzeScreenAndSpeech true (ApiOutcome.ok "응답") "IMG" "변수가 뭐예요" historySessionC3).chatHistories
      = [convertToGeminiHistory historySessionC3.messageHistory]
    ∧ GeminiContent.mk Role.model "a1" ∈ convertToGeminiHistory historySessionC3.messageHistory := by
  refine ⟨rfl, by decide, rfl, by decide⟩

/-- Claim C4 is false on the code: with the camera active, a pending
transcript and a grabbable frame, a sampling tick does nothing (the tick
body returns at its screen-only guard), and `startVideoStream` never
starts the sampling interval while `startScreenStream` does — sampling
does not occur for the camera source. -/
theorem C4_counterexample :
    captureScreenFrame true (ApiOutcome.ok "답변") (FrameResult.grabbed "IMG") cameraSessionC4 = cameraSessionC4
    ∧ cameraSessionC4.state.isVideoActive = true
    ∧ ¬ cameraSessionC4.speechToTextResult = ""
    ∧ (startVideoStream (initialSession "수학" "beginner") 3).captureInterval = false
    ∧ (startScreenStream (initialSession "수학" "beginner") 4).captureInterval = true := by
  exact ⟨rfl, rfl, by decide, rfl, rfl⟩

/-- Claim C4 amended: the frame sampler is started only by screen-share
activation and each tick samples only the screen source — whenever the
screen modality is inactive (or no screen stream exists), a tick is a
no-op regardless of the camera, `startVideoStream` leaves the sampling
interval as it was, and `startScreenStream` starts it. -/
theorem frame_sampler_screen_only (s : Session) (k : Bool) (o : ApiOutcome) (fr : FrameResult) (n : Nat)
    (h : s.state.isScreenActive = false ∨ s.localScreenStream = none) :
    captureScreenFrame k o fr s = s
    ∧ (startVideoStream s n).captureInterval = s.captureInterval
    ∧ (startScreenStream s n).captureInterval = true := by
  refine ⟨?_, ?_, ?_⟩
  · rcases h with h | h <;> simp [captureScreenFrame, h]
  · cases hv : s.localVideoStream <;> simp [startVideoStream, hv]
  · cases hv : s.localScreenStream <;> simp [startScreenStream, startScreenCapture, hv]

/-- Witness for the amended C4 at the freshly constructed session. -/
theorem frame_sampler_screen_only_witness :
    captureScreenFrame true ApiOutcome.apiError FrameResult.unsupported (initialSession "수학" "beginner")
      = initialSession "수학" "beginner"
    ∧ (startVideoStream (initialSession "수학" "beginner") 1).captureInterval
      = (initialSession "수학" "beginner").captureInterval
    ∧ (startScreenStream (initialSession "수학" "beginner") 1).captureInterval = true :=
  frame_sampler_screen_only (initialSession "수학" "beginner") true ApiOutcome.apiError
    FrameResult.unsupported 1 (Or.inr rfl)

/-- Speaking a reply never touches the sampler's invocation counter. -/
theorem speakResponse_engineCalls (t : String) (s : Session) :
    (speakResponse t s).engineCalls = s.engineCalls := by
  unfold speakResponse
  split <;> rfl

/-- The tutor engine call itself never touches the sampler's invocation
counter; only the sampling tick increments it. -/
theorem analyze_engineCalls (k : Bool) (o : ApiOutcome) (img txt : String) (s : Session) :
    (analyzeScreenAndSpeech k o img txt s).engineCalls = s.engineCalls := by
  cases k
  · simp [analyzeScreenAndSpeech]
  · cases o <;> simp [analyzeScreenAndSpeech, speakResponse_engineCalls] <;> split <;> simp

/-- Claim C5: for a normal sampling tick (screen active, live screen
stream, frame grabbed and encoded), an empty finalized-transcript buffer
yields zero tutor-engine calls and an unchanged session, while a
non-empty buffer yields exactly one tutor-engine call after which the
buffer is cleared. -/
theorem tick_frame_transcript_pairing (s : Session) (k : Bool) (o : ApiOutcome) (b64 : String) (n : Nat)
    (hs : s.localScreenStream = some n) (ha : s.state.isScreenActive = true) (hb : ¬ b64 = "") :
    (s.speechToTextResult = "" → captureScreenFrame k o (FrameResult.grabbed b64) s = s)
    ∧ (¬ s.speechToTextResult = "" →
        (captureScreenFrame k o (FrameResult.grabbed b64) s).engineCalls = s.engineCalls + 1
        ∧ (captureScreenFrame k o (FrameResult.grabbed b64) s).speechToTextResult = "") := by
  constructor
  · intro he
    simp [captureScreenFrame, hs, ha, hb, he]
  · intro he
    constructor
    · simp [captureScreenFrame, hs, ha, hb, he, analyze_engineCalls]
    · simp [captureScreenFrame, hs, ha, hb, he]

/-- Witness for C5 at a concrete screen-active session with and without
pending transcript. -/
theorem tick_frame_transcript_pairing_witness :
    ((captureScreenFrame true (ApiOutcome.ok "답") (FrameResult.grabbed "F") screenSessionC5).engineCalls
        = screenSessionC5.engineCalls + 1
      ∧ (captureScreenFrame true (ApiOutcome.ok "답") (FrameResult.grabbed "F") screenSessionC5).speechToTextResult = "")
    ∧ captureScreenFrame true (ApiOutcome.ok "답") (FrameResult.grabbed "F")
        { screenSessionC5 with speechToTextResult := "" }
      = { screenSessionC5 with speechToTextResult := "" } := by
  exact ⟨(tick_frame_transcript_pairing screenSessionC5 true (ApiOutcome.ok "답") "F" 2 rfl rfl (by decide)).2 (by decide),
         (tick_frame_transcript_pairing { screenSessionC5 with speechToTextResult := "" } true
            (ApiOutcome.ok "답") "F" 2 rfl rfl (by decide)).1 rfl⟩

/-- Claim C6: for every outcome of a tutor-response call (success,
returned provider failure, thrown setup exception) the `isProcessing`
flag is false once the call settles; and when the api key is absent the
call leaves the session untouched (so the flag keeps its prior value). -/
theorem processing_flag_reset (s : Session) (o : ApiOutcome) (img txt : String) :
    (analyzeScreenAndSpeech true o img txt s).state.isProcessing = false
    ∧ analyzeScreenAndSpeech false o img txt s = s := by
  constructor
  · cases o <;> simp [analyzeScreenAndSpeech, speakResponse]
  · simp [analyzeScreenAndSpeech]

/-- Claim C7 is false on the code as stated: on an unexpected recognizer
end with audio still active, a brand-new instance (id 1) is indeed
created and the old reference dropped, but the old instance's handlers
are NEVER detached on this path — `onend` nulls the reference directly,
so the later cleanup in `safeStartSpeechRecognition` finds nothing to
detach and the detach log stays empty. -/
theorem C7_counterexample :
    (recognizerEndFlow audioSessionC7).speechRecognition = some 1
    ∧ (recognizerEndFlow audioSessionC7).srCreated = [1, 0]
    ∧ (recognizerEndFlow audioSessionC7).srDetached = [] := by
  exact ⟨rfl, rfl, rfl⟩

/-- Claim C7 amended: when the recognizer ends unexpectedly while
`isAudioActive` is true, the reference is dropped immediately and a
brand-new instance is created after the settling delay (so at most one
instance is referenced at any time); if `isAudioActive` is false at the
end event or at the delayed restart, no restart occurs; but the ended
instance's handlers are not detached on this path (the detach log is
unchanged) — handlers are detached only when the safe-start routine runs
while a recognizer is still referenced. -/
theorem recognizer_end_restart (s : Session) (r : Nat)
    (ha : s.state.isAudioActive = true) (hr : s.speechRecognition = some r) :
    ((recognitionOnEnd s).speechRecognition = none
      ∧ (recognizerEndFlow s).speechRecognition = some s.srNextId
      ∧ (recognizerEndFlow s).srCreated = s.srNextId :: s.srCreated
      ∧ (recognizerEndFlow s).srDetached = s.srDetached)
    ∧ (∀ t : Session, t.state.isAudioActive = false → recognizerEndFlow t = t)
    ∧ ((recognizerEndThenStopFlow s).srCreated = s.srCreated
      ∧ (recognizerEndThenStopFlow s).speechRecognition = none)
    ∧ (∀ t : Session, ∀ q : Nat, t.speechRecognition = some q →
        (safeStartSpeechRecognition t).srDetached = stopTracks q t.srDetached) := by
  refine ⟨⟨?_, ?_, ?_, ?_⟩, ?_, ⟨?_, ?_⟩, ?_⟩
  · simp [recognitionOnEnd, ha]
  · simp [recognizerEndFlow, recognitionOnEnd, onEndRestartTimeout, safeStartSpeechRecognition,
      safeStartCleanup, safeStartCreate, ha]
  · simp [recognizerEndFlow, recognitionOnEnd, onEndRestartTimeout, safeStartSpeechRecognition,
      safeStartCleanup, safeStartCreate, ha]
  · simp [recognizerEndFlow, recognitionOnEnd, onEndRestartTimeout, safeStartSpeechRecognition,
      safeStartCleanup, safeStartCreate, ha]
  · intro t ht
    simp [recognizerEndFlow, recognitionOnEnd, onEndRestartTimeout, ht]
  · cases haud : s.localAudioStream <;>
      simp [recognizerEndThenStopFlow, recognitionOnEnd, onEndRestartTimeout, stopAudioStream, ha, haud]
  · cases haud : s.localAudioStream <;>
      simp [recognizerEndThenStopFlow, recognitionOnEnd, onEndRestartTimeout, stopAudioStream, ha, haud]
  · intro t q hq
    cases hact : t.state.isAudioActive <;>
      simp [safeStartSpeechRecognition, safeStartCleanup, safeStartCreate, hq, hact]

/-- Witness for the amended C7 at a concrete audio-active session. -/
theorem recognizer_end_restart_witness :
    (recognitionOnEnd audioSessionC7).speechRecognition = none
    ∧ recognizerEndFlow (initialSession "수학" "beginner") = initialSession "수학" "beginner"
    ∧ (recognizerEndThenStopFlow audioSessionC7).srCreated = audioSessionC7.srCreated
    ∧ (safeStartSpeechRecognition audioSessionC7).srDetached = stopTracks 0 audioSessionC7.srDetached := by
  exact ⟨(recognizer_end_restart audioSessionC7 0 rfl rfl).1.1,
         (recognizer_end_restart audioSessionC7 0 rfl rfl).2.1 (initialSession "수학" "beginner") rfl,
         (recognizer_end_restart audioSessionC7 0 rfl rfl).2.2.1.1,
         (recognizer_end_restart audioSessionC7 0 rfl rfl).2.2.2 audioSessionC7 0 rfl⟩

/-- Claim C8: when synthesis is available, speaking A and then B leaves
exactly the single utterance B in the engine queue (A was cancelled, not
queued), `isSpeaking` is set when an utterance starts, and the end and
error events both clear it. -/
theorem speak_single_utterance (s : Session) (a b : String) (h : s.ttsAvailable = true) :
    (speakResponse a s).ttsQueue = [a]
    ∧ (speakResponse b (speakResponse a s)).ttsQueue = [b]
    ∧ (speakResponse a s).state.isSpeaking = true
    ∧ (speechSynthesisOnEnd s).state.isSpeaking = false
    ∧ (speechSynthesisOnError s).state.isSpeaking = false := by
  refine ⟨?_, ?_, ?_, ?_, ?_⟩ <;>
    simp [speakResponse, speechSynthesisOnEnd, speechSynthesisOnError, h]

/-- Witness for C8 at the freshly constructed session. -/
theorem speak_single_utterance_witness :
    (speakResponse "안녕" (initialSession "수학" "beginner")).ttsQueue = ["안녕"]
    ∧ (speakResponse "반가워" (speakResponse "안녕" (initialSession "수학" "beginner"))).ttsQueue = ["반가워"] := by
  exact ⟨(speak_single_utterance (initialSession "수학" "beginner") "안녕" "반가워" rfl).1,
         (speak_single_utterance (initialSession "수학" "beginner") "안녕" "반가워" rfl).2.1⟩

/-- Claim C9 is false on the code as stated: stopping audio clears no
transcript state — the pending finalized-transcript buffer survives
`stopAudioStream` untouched (and no interim transcript is stored in the
session at all, so nothing else could be cleared). -/
theorem C9_counterexample :
    (stopAudioStream audioSessionC9).speechToTextResult = "마지막 질문"
    ∧ ¬ (stopAudioStream audioSessionC9).speechToTextResult = "" := by
  exact ⟨rfl, by decide⟩

/-- Claim C9 amended: the stop operations are idempotent — stopping a
modality that is already inactive (flag down, resources released or
already stopped) leaves the session exactly unchanged and raises no
error — and stopping audio also stops the speech recognizer (detaching
its handlers and dropping the reference); but no transcript state is
cleared: the transcript buffer survives `stopAudioStream` unchanged. -/
theorem stop_operations (s : Session) :
    ((s.state.isAudioActive = false → s.speechRecognition = none → s.localAudioStream = none →
        stopAudioStream s = s)
      ∧ (s.state.isVideoActive = false →
          (∀ v, s.localVideoStream = some v → v ∈ s.stoppedTracks) → stopVideoStream s = s)
      ∧ (s.state.isScreenActive = false → s.captureInterval = false →
          (∀ v, s.localScreenStream = some v → v ∈ s.stoppedTracks) → stopScreenStream s = s))
    ∧ (∀ r, s.speechRecognition = some r →
        (stopAudioStream s).speechRecognition = none ∧ r ∈ (stopAudioStream s).srDetached)
    ∧ (stopAudioStream s).speechToTextResult = s.speechToTextResult := by
  obtain ⟨⟨c, aa, va, sa, pr, sp⟩, mh, su, le, las, lvs, lss, sr, ci, stt, stk, se, sq, ch, ec, sd, sc, sn, ta, tq⟩ := s
  refine ⟨⟨?_, ?_, ?_⟩, ?_, ?_⟩
  · intro h1 h2 h3
    simp only at h1 h2 h3
    subst h1 h2 h3
    simp [stopAudioStream]
  · intro h1 h2
    simp only at h1 h2
    subst h1
    cases hv : lvs with
    | none => simp [stopVideoStream, hv]
    | some v =>
        subst hv
        simp [stopVideoStream, stopTracks_eq_of_mem (h2 v rfl)]
  · intro h1 h2 h3
    simp only at h1 h2 h3
    subst h1 h2
    cases hv : lss with
    | none => simp [stopScreenStream, hv]
    | some v =>
        subst hv
        simp [stopScreenStream, stopTracks_eq_of_mem (h3 v rfl)]
  · intro r hr
    simp only at hr
    subst hr
    cases las <;> simp [stopAudioStream, mem_stopTracks_self]
  · cases hsr : sr <;> cases hla : las <;> simp [stopAudioStream, hsr, hla]

/-- Witness for the amended C9: a fully inactive session is unchanged by
every stop, and stopping an active audio session detaches and drops the
recognizer while the transcript buffer survives. -/
theorem stop_operations_witness :
    stopAudioStream { initialSession "수학" "beginner" with speechRecognition := none }
      = { initialSession "수학" "beginner" with speechRecognition := none }
    ∧ stopVideoStream (initialSession "수학" "beginner") = initialSession "수학" "beginner"
    ∧ stopScreenStream (initialSession "수학" "beginner") = initialSession "수학" "beginner"
    ∧ ((stopAudioStream audioSessionC9).speechRecognition = none
        ∧ 0 ∈ (stopAudioStream audioSessionC9).srDetached)
    ∧ (stopAudioStream audioSessionC9).speechToTextResult = audioSessionC9.speechToTextResult := by
  exact ⟨(stop_operations { initialSession "수학" "beginner" with speechRecognition := none }).1.1 rfl rfl rfl,
         (stop_operations (initialSession "수학" "beginner")).1.2.1 rfl (by intro v hv; cases hv),
         (stop_operations (initialSession "수학" "beginner")).1.2.2 rfl rfl (by intro v hv; cases hv),
         (stop_operations audioSessionC9).2.1 0 rfl,
         (stop_operations audioSessionC9).2.2⟩

/-- Claim C10: each recognition event carrying final text REPLACES the
whole transcript buffer; after two final events in a row the buffer holds
exactly the second event's final text, so a later tick forwards only the
most recent final transcript and the earlier one is dropped. -/
theorem final_transcript_replaces (s : Session) (e1 e2 : List SRResult)
    (h1 : ¬ finalTranscriptOf e1 = "") (h2 : ¬ finalTranscriptOf e2 = "") :
    (recognitionOnResult e1 s).speechToTextResult = finalTranscriptOf e1
    ∧ (recognitionOnResult e2 (recognitionOnResult e1 s)).speechToTextResult = finalTranscriptOf e2 := by
  constructor
  · simp [recognitionOnResult, h1]
  · simp [recognitionOnResult, h1, h2]

/-- Witness for C10: two final results between ticks — the buffer ends
up holding only the second. -/
theorem final_transcript_replaces_witness :
    (recognitionOnResult [SRResult.mk "첫 질문" true] (initialSession "수학" "beginner")).speechToTextResult
      = finalTranscriptOf [SRResult.mk "첫 질문" true]
    ∧ (recognitionOnResult [SRResult.mk "둘째 질문" true]
          (recognitionOnResult [SRResult.mk "첫 질문" true] (initialSession "수학" "beginner"))).speechToTextResult
      = finalTranscriptOf [SRResult.mk "둘째 질문" true] := by
  exact ⟨(final_transcript_replaces (initialSession "수학" "beginner")
            [SRResult.mk "첫 질문" true] [SRResult.mk "둘째 질문" true] (by decide) (by decide)).1,
         (final_transcript_replaces (initialSession "수학" "beginner")
            [SRResult.mk "첫 질문" true] [SRResult.mk "둘째 질문" true] (by decide) (by decide)).2⟩

end RealTutor
